import Mathlib

/-!
Verification of the JNI compilation bridge in `src/lib.rs` of LiveLatexApp.

The single exported function
`Java_com_omariskandarani_livelatexapp_LatexCompiler_compilePdf` decodes two
JNI string handles (the LaTeX source and the output path), calls
`tectonic::latex_to_pdf`, writes the resulting bytes to the output path with
`File::create` / `write_all`, and collapses the whole pipeline into a single
`jboolean` (1 on success, 0 on any failure).

The external collaborators (the JNI environment's string decoder, the
tectonic engine, and the operating system's filesystem) are modelled as an
explicit `ExternWorld` of oracles, and the filesystem state is threaded
through the bridge explicitly, so every theorem below quantifies over all
behaviours of those collaborators.
-/

namespace LiveLatexApp

/-- A PDF artifact: an owned sequence of bytes (each entry one `u8`). -/
abbrev Bytes := List Nat

/-- A JNI string handle (`JString`): the bridge never inspects it itself, it
only hands it to `JNIEnv::get_string`.  Handles are indexed by naturals. -/
abbrev JStringHandle := Nat

/-- The filesystem: a map from paths to the byte contents of the file there,
`none` when no file exists at that path. -/
abbrev FS := String → Option Bytes

/-- The external collaborators of the bridge, as oracles:

* `getString` models `JNIEnv::get_string` followed by `.into()`: decoding a
  foreign handle into an owned `String`, which may fail (null or invalid
  handle, bad encoding);
* `latexToPdf` models `tectonic::latex_to_pdf`: a pure function from the
  decoded source to either PDF bytes or an engine error (the error is kept
  as a string, as the bridge maps it with `e.to_string()`);
* `parentExists p` / `permitted p` say whether the parent directory of path
  `p` exists and whether the process may write at `p`; `File::create`
  succeeds exactly when both hold;
* `capacity p` bounds how many bytes the device can store at `p` before
  `write_all` hits an I/O error (disk exhaustion). -/
structure ExternWorld where
  getString : JStringHandle → Except String String
  latexToPdf : String → Except String Bytes
  parentExists : String → Bool
  permitted : String → Bool
  capacity : String → Nat

/-- `File::create(&out_path)`: create or truncate the file at the path.  On
success the file at the path becomes empty; on failure the filesystem is
unchanged. -/
def fileCreate (w : ExternWorld) (fs : FS) (p : String) : Except String FS :=
  if w.parentExists p && w.permitted p then
    Except.ok (fun q => if q = p then some [] else fs q)
  else
    Except.error ("could not create " ++ p)

/-- `f.write_all(&pdf_bytes)`: write the whole byte sequence to the file just
created at `p`.  If the device cannot hold all the bytes, only a prefix of
them remains at `p` and an I/O error is reported. -/
def writeAll (w : ExternWorld) (fs : FS) (p : String) (bytes : Bytes) :
    Except String Unit × FS :=
  if bytes.length ≤ w.capacity p then
    (Except.ok (), fun q => if q = p then some bytes else fs q)
  else
    (Except.error ("write failed at " ++ p),
     fun q => if q = p then some (bytes.take (w.capacity p)) else fs q)

/-- The inner closure of the bridge (`(|| -> Result<(), Box<dyn Error>> {...})()`):
decode both handles, run the engine, create the file, write the bytes.  Each
`?` is a short-circuiting match; the filesystem state accumulated so far is
returned alongside the `Result`. -/
def compileBody (w : ExternWorld) (fs : FS)
    (latex_src output_path : JStringHandle) : Except String Unit × FS :=
  match w.getString latex_src with
  | Except.error e => (Except.error e, fs)
  | Except.ok latex =>
    match w.getString output_path with
    | Except.error e => (Except.error e, fs)
    | Except.ok out_path =>
      match w.latexToPdf latex with
      | Except.error e => (Except.error e, fs)
      | Except.ok pdf_bytes =>
        match fileCreate w fs out_path with
        | Except.error e => (Except.error e, fs)
        | Except.ok fs1 => writeAll w fs1 out_path pdf_bytes

/-- `Java_com_omariskandarani_livelatexapp_LatexCompiler_compilePdf`: run the
closure and collapse its `Result` into a `jboolean`, `1` for `Ok(())` and `0`
for `Err(_)`.  The third handle `_cache_dir` is accepted and never used,
exactly as in the source. -/
def compilePdf (w : ExternWorld) (fs : FS)
    (latex_src output_path _cache_dir : JStringHandle) : Nat × FS :=
  match compileBody w fs latex_src output_path with
  | (Except.ok _, fs2) => (1, fs2)
  | (Except.error _, fs2) => (0, fs2)

/-- The spec's success condition, in the spec's own words: string decoding
(both handles), engine compilation, and the complete file write must all
succeed. -/
def stepsSucceed (w : ExternWorld) (a b : JStringHandle) : Prop :=
  ∃ latex out_path pdf,
    w.getString a = Except.ok latex ∧
    w.getString b = Except.ok out_path ∧
    w.latexToPdf latex = Except.ok pdf ∧
    (w.parentExists out_path && w.permitted out_path) = true ∧
    pdf.length ≤ w.capacity out_path

/-- The empty filesystem. -/
def fsEmpty : FS := fun _ => none

/-- A world in which every collaborator succeeds: handle 0 decodes to a
source document, every other handle decodes to the path "/tmp/out.pdf". -/
def demoWorld : ExternWorld where
  getString := fun n => if n = 0 then Except.ok "hello doc" else Except.ok "/tmp/out.pdf"
  latexToPdf := fun _ => Except.ok [37, 80, 68, 70]
  parentExists := fun _ => true
  permitted := fun _ => true
  capacity := fun _ => 100

/-- A world in which every decode fails. -/
def failWorld : ExternWorld where
  getString := fun _ => Except.error "bad handle"
  latexToPdf := fun _ => Except.error "engine down"
  parentExists := fun _ => false
  permitted := fun _ => false
  capacity := fun _ => 0

/-- A world in which decoding succeeds but the destination's parent directory
does not exist. -/
def noDirWorld : ExternWorld where
  getString := fun n => if n = 0 then Except.ok "hello doc" else Except.ok "/missing/out.pdf"
  latexToPdf := fun _ => Except.ok [37, 80, 68, 70]
  parentExists := fun _ => false
  permitted := fun _ => true
  capacity := fun _ => 100

/-- A world in which decoding succeeds but the engine rejects the source. -/
def rejectWorld : ExternWorld where
  getString := fun n => if n = 0 then Except.ok "bad doc" else Except.ok "/tmp/out2.pdf"
  latexToPdf := fun _ => Except.error "unterminated environment"
  parentExists := fun _ => true
  permitted := fun _ => true
  capacity := fun _ => 100

/-- Helper: if any step before the write fails (first decode, second decode,
engine, or file creation), the bridge returns `0` and the filesystem is the
one it was handed, untouched. -/
theorem compilePdf_fail_pre (w : ExternWorld) (fs : FS) (a b c : JStringHandle)
    (h : (∃ e, w.getString a = Except.error e) ∨
         (∃ la e, w.getString a = Except.ok la ∧ w.getString b = Except.error e) ∨
         (∃ la pa e, w.getString a = Except.ok la ∧ w.getString b = Except.ok pa ∧
           w.latexToPdf la = Except.error e) ∨
         (∃ la pa pdf, w.getString a = Except.ok la ∧ w.getString b = Except.ok pa ∧
           w.latexToPdf la = Except.ok pdf ∧
           (w.parentExists pa && w.permitted pa) = false)) :
    compilePdf w fs a b c = (0, fs) := by
  rcases h with ⟨e, he⟩ | ⟨la, e, hla, he⟩ | ⟨la, pa, e, hla, hpa, he⟩ |
    ⟨la, pa, pdf, hla, hpa, hpdf, hcr⟩
  · simp [compilePdf, compileBody, he]
  · simp [compilePdf, compileBody, hla, he]
  · simp [compilePdf, compileBody, hla, hpa, he]
  · simp [compilePdf, compileBody, hla, hpa, hpdf, fileCreate, hcr]

/-- Helper: when every step succeeds, the bridge returns `1` and the
filesystem holds exactly the PDF bytes at the decoded output path, all other
paths untouched. -/
theorem compilePdf_of_steps (w : ExternWorld) (fs : FS) (a b c : JStringHandle)
    (la pa : String) (pdf : Bytes)
    (hA : w.getString a = Except.ok la) (hB : w.getString b = Except.ok pa)
    (hP : w.latexToPdf la = Except.ok pdf)
    (hC : (w.parentExists pa && w.permitted pa) = true)
    (hW : pdf.length ≤ w.capacity pa) :
    compilePdf w fs a b c = (1, fun q => if q = pa then some pdf else fs q) := by
  simp only [compilePdf, compileBody, hA, hB, hP, fileCreate, hC, if_true,
    writeAll, if_pos hW]
  refine Prod.ext rfl ?_
  funext q
  by_cases hq : q = pa <;> simp [hq]

/-- Helper: the bridge returns `1` exactly when all steps succeed. -/
theorem compilePdf_fst_one_iff (w : ExternWorld) (fs : FS) (a b c : JStringHandle) :
    (compilePdf w fs a b c).fst = 1 ↔ stepsSucceed w a b := by
  constructor
  · intro h
    rcases hA : w.getString a with e | la
    · rw [compilePdf_fail_pre w fs a b c (Or.inl ⟨e, hA⟩)] at h
      exact absurd h (by simp)
    · rcases hB : w.getString b with e | pa
      · rw [compilePdf_fail_pre w fs a b c (Or.inr (Or.inl ⟨la, e, hA, hB⟩))] at h
        exact absurd h (by simp)
      · rcases hP : w.latexToPdf la with e | pdf
        · rw [compilePdf_fail_pre w fs a b c
            (Or.inr (Or.inr (Or.inl ⟨la, pa, e, hA, hB, hP⟩)))] at h
          exact absurd h (by simp)
        · rcases hC : (w.parentExists pa && w.permitted pa) with _ | _
          · rw [compilePdf_fail_pre w fs a b c
              (Or.inr (Or.inr (Or.inr ⟨la, pa, pdf, hA, hB, hP, hC⟩)))] at h
            exact absurd h (by simp)
          · by_cases hW : pdf.length ≤ w.capacity pa
            · exact ⟨la, pa, pdf, hA, hB, hP, hC, hW⟩
            · exfalso
              simp only [compilePdf, compileBody, hA, hB, hP, fileCreate, hC,
                if_true, writeAll, if_neg hW] at h
              exact absurd h (by decide)
  · rintro ⟨la, pa, pdf, hA, hB, hP, hC, hW⟩
    rw [compilePdf_of_steps w fs a b c la pa pdf hA hB hP hC hW]

/-- Helper: the returned jboolean is always 0 or 1. -/
theorem compilePdf_fst_zero_or_one (w : ExternWorld) (fs : FS)
    (a b c : JStringHandle) :
    (compilePdf w fs a b c).fst = 0 ∨ (compilePdf w fs a b c).fst = 1 := by
  rcases hcb : compileBody w fs a b with ⟨e | u, fs2⟩ <;> simp [compilePdf, hcb]

/-- Claim C1: every invocation of compilePdf returns exactly one boolean
outcome: 1 exactly when decoding, engine compilation and the complete file
write all succeeded, 0 exactly when some step failed, with no finer-grained
information in the return value. -/
theorem compilePdf_outcome_boolean (w : ExternWorld) (fs : FS)
    (a b c : JStringHandle) :
    ((compilePdf w fs a b c).fst = 1 ↔ stepsSucceed w a b) ∧
    ((compilePdf w fs a b c).fst = 0 ↔ ¬ stepsSucceed w a b) := by
  refine ⟨compilePdf_fst_one_iff w fs a b c, ?_⟩
  rw [← compilePdf_fst_one_iff w fs a b c]
  rcases compilePdf_fst_zero_or_one w fs a b c with h | h <;> simp [h]

/-- Claim C2: whenever any step of the pipeline faults (as reported through
the `Result` values the source's types define), compilePdf still returns
normally, with the failure signal 0: no fault escapes the bridge. -/
theorem compilePdf_fault_contained (w : ExternWorld) (fs : FS)
    (a b c : JStringHandle) (h : ¬ stepsSucceed w a b) :
    (compilePdf w fs a b c).fst = 0 := by
  rcases compilePdf_fst_zero_or_one w fs a b c with h0 | h1
  · exact h0
  · exact absurd ((compilePdf_fst_one_iff w fs a b c).mp h1) h

/-- Witness for C2, at a world where every decode fails. -/
theorem compilePdf_fault_contained_witness :
    ¬ stepsSucceed failWorld 0 1 ∧ (compilePdf failWorld fsEmpty 0 1 2).fst = 0 := by
  have hns : ¬ stepsSucceed failWorld 0 1 := by
    rintro ⟨la, pa, pdf, hA, _⟩
    simp [failWorld] at hA
  exact ⟨hns, compilePdf_fault_contained failWorld fsEmpty 0 1 2 hns⟩

/-- Claim C3: the bridge runs its steps in a fixed order and short-circuits:
a failure of the first decode, the second decode, the engine, or file
creation makes it return 0 at once with the filesystem untouched, so every
later step (in particular the engine call and the write) is skipped, and a
decoding failure is a failure outcome rather than a crash. -/
theorem compilePdf_short_circuit (w : ExternWorld) (fs : FS)
    (a b c : JStringHandle)
    (h : (∃ e, w.getString a = Except.error e) ∨
         (∃ la e, w.getString a = Except.ok la ∧ w.getString b = Except.error e) ∨
         (∃ la pa e, w.getString a = Except.ok la ∧ w.getString b = Except.ok pa ∧
           w.latexToPdf la = Except.error e) ∨
         (∃ la pa pdf, w.getString a = Except.ok la ∧ w.getString b = Except.ok pa ∧
           w.latexToPdf la = Except.ok pdf ∧
           (w.parentExists pa && w.permitted pa) = false)) :
    compilePdf w fs a b c = (0, fs) :=
  compilePdf_fail_pre w fs a b c h

/-- Witness for C3, at a world whose first decode fails. -/
theorem compilePdf_short_circuit_witness :
    ((∃ e, failWorld.getString 0 = Except.error e) ∨
     (∃ la e, failWorld.getString 0 = Except.ok la ∧
       failWorld.getString 1 = Except.error e) ∨
     (∃ la pa e, failWorld.getString 0 = Except.ok la ∧
       failWorld.getString 1 = Except.ok pa ∧
       failWorld.latexToPdf la = Except.error e) ∨
     (∃ la pa pdf, failWorld.getString 0 = Except.ok la ∧
       failWorld.getString 1 = Except.ok pa ∧
       failWorld.latexToPdf la = Except.ok pdf ∧
       (failWorld.parentExists pa && failWorld.permitted pa) = false)) ∧
    compilePdf failWorld fsEmpty 0 1 2 = (0, fsEmpty) := by
  have hd : (∃ e, failWorld.getString 0 = Except.error e) ∨
      (∃ la e, failWorld.getString 0 = Except.ok la ∧
        failWorld.getString 1 = Except.error e) ∨
      (∃ la pa e, failWorld.getString 0 = Except.ok la ∧
        failWorld.getString 1 = Except.ok pa ∧
        failWorld.latexToPdf la = Except.error e) ∨
      (∃ la pa pdf, failWorld.getString 0 = Except.ok la ∧
        failWorld.getString 1 = Except.ok pa ∧
        failWorld.latexToPdf la = Except.ok pdf ∧
        (failWorld.parentExists pa && failWorld.permitted pa) = false) :=
    Or.inl ⟨"bad handle", rfl⟩
  exact ⟨hd, compilePdf_short_circuit failWorld fsEmpty 0 1 2 hd⟩

/-- Claim C4: when compilePdf returns 1, the file at the decoded destination
path holds exactly the bytes the engine produced, and no other path was
touched (direct create-and-write, no staging file). -/
theorem compilePdf_success_file_contents (w : ExternWorld) (fs : FS)
    (a b c : JStringHandle) (h : (compilePdf w fs a b c).fst = 1) :
    ∃ la pa pdf, w.getString a = Except.ok la ∧ w.getString b = Except.ok pa ∧
      w.latexToPdf la = Except.ok pdf ∧
      (compilePdf w fs a b c).snd pa = some pdf ∧
      ∀ q, q ≠ pa → (compilePdf w fs a b c).snd q = fs q := by
  obtain ⟨la, pa, pdf, hA, hB, hP, hC, hW⟩ := (compilePdf_fst_one_iff w fs a b c).mp h
  refine ⟨la, pa, pdf, hA, hB, hP, ?_, ?_⟩
  · rw [compilePdf_of_steps w fs a b c la pa pdf hA hB hP hC hW]
    simp
  · intro q hq
    rw [compilePdf_of_steps w fs a b c la pa pdf hA hB hP hC hW]
    simp [hq]

/-- Witness for C4, at a world where every step succeeds. -/
theorem compilePdf_success_file_contents_witness :
    (compilePdf demoWorld fsEmpty 0 1 2).fst = 1 ∧
    ∃ la pa pdf, demoWorld.getString 0 = Except.ok la ∧
      demoWorld.getString 1 = Except.ok pa ∧
      demoWorld.latexToPdf la = Except.ok pdf ∧
      (compilePdf demoWorld fsEmpty 0 1 2).snd pa = some pdf ∧
      ∀ q, q ≠ pa → (compilePdf demoWorld fsEmpty 0 1 2).snd q = fsEmpty q :=
  ⟨rfl, compilePdf_success_file_contents demoWorld fsEmpty 0 1 2 rfl⟩

/-- Claim C5: the cache-directory handle is never consulted: the whole
outcome (signal and filesystem) is identical for any two values of the third
argument. -/
theorem compilePdf_cache_dir_ignored (w : ExternWorld) (fs : FS)
    (a b : JStringHandle) (c c2 : JStringHandle) :
    compilePdf w fs a b c = compilePdf w fs a b c2 := rfl

/-- Claim C6: if the parent directory of the decoded destination path does
not exist, compilePdf returns 0 and leaves the whole filesystem unchanged,
so no new file is created at that path. -/
theorem compilePdf_missing_parent_dir (w : ExternWorld) (fs : FS)
    (a b c : JStringHandle) (pa : String)
    (hB : w.getString b = Except.ok pa) (hnd : w.parentExists pa = false) :
    (compilePdf w fs a b c).fst = 0 ∧ ∀ q, (compilePdf w fs a b c).snd q = fs q := by
  have h : compilePdf w fs a b c = (0, fs) := by
    rcases hA : w.getString a with e | la
    · exact compilePdf_fail_pre w fs a b c (Or.inl ⟨e, hA⟩)
    · rcases hP : w.latexToPdf la with e | pdf
      · exact compilePdf_fail_pre w fs a b c
          (Or.inr (Or.inr (Or.inl ⟨la, pa, e, hA, hB, hP⟩)))
      · exact compilePdf_fail_pre w fs a b c
          (Or.inr (Or.inr (Or.inr ⟨la, pa, pdf, hA, hB, hP, by simp [hnd]⟩)))
  rw [h]
  exact ⟨rfl, fun q => rfl⟩

/-- Witness for C6, at a world whose destination parent directory is
missing. -/
theorem compilePdf_missing_parent_dir_witness :
    noDirWorld.getString 1 = Except.ok "/missing/out.pdf" ∧
    noDirWorld.parentExists "/missing/out.pdf" = false ∧
    ((compilePdf noDirWorld fsEmpty 0 1 2).fst = 0 ∧
     ∀ q, (compilePdf noDirWorld fsEmpty 0 1 2).snd q = fsEmpty q) :=
  ⟨rfl, rfl, compilePdf_missing_parent_dir noDirWorld fsEmpty 0 1 2
    "/missing/out.pdf" rfl rfl⟩

/-- Claim C7: if the engine rejects the decoded LaTeX source, compilePdf
returns 0 and the filesystem is untouched (even stronger than the claim's
allowance of a partial file: no validly completed PDF is produced). -/
theorem compilePdf_engine_reject (w : ExternWorld) (fs : FS)
    (a b c : JStringHandle) (la e : String)
    (hA : w.getString a = Except.ok la) (hP : w.latexToPdf la = Except.error e) :
    compilePdf w fs a b c = (0, fs) := by
  rcases hB : w.getString b with e2 | pa
  · exact compilePdf_fail_pre w fs a b c (Or.inr (Or.inl ⟨la, e2, hA, hB⟩))
  · exact compilePdf_fail_pre w fs a b c
      (Or.inr (Or.inr (Or.inl ⟨la, pa, e, hA, hB, hP⟩)))

/-- Witness for C7, at a world whose engine rejects the source. -/
theorem compilePdf_engine_reject_witness :
    rejectWorld.getString 0 = Except.ok "bad doc" ∧
    rejectWorld.latexToPdf "bad doc" = Except.error "unterminated environment" ∧
    compilePdf rejectWorld fsEmpty 0 1 2 = (0, fsEmpty) :=
  ⟨rfl, rfl, compilePdf_engine_reject rejectWorld fsEmpty 0 1 2
    "bad doc" "unterminated environment" rfl rfl⟩

/-- Claim C8: with the engine a pure function of the source, a second call
with the same inputs, starting from the filesystem the first successful call
produced, succeeds again and leaves the same bytes at every path: the bridge
is deterministic and idempotent on its valid inputs. -/
theorem compilePdf_idempotent (w : ExternWorld) (fs : FS)
    (a b c : JStringHandle) (h : (compilePdf w fs a b c).fst = 1) :
    (compilePdf w ((compilePdf w fs a b c).snd) a b c).fst = 1 ∧
    ∀ q, (compilePdf w ((compilePdf w fs a b c).snd) a b c).snd q =
      (compilePdf w fs a b c).snd q := by
  obtain ⟨la, pa, pdf, hA, hB, hP, hC, hW⟩ := (compilePdf_fst_one_iff w fs a b c).mp h
  have h1 := compilePdf_of_steps w fs a b c la pa pdf hA hB hP hC hW
  have h2 := compilePdf_of_steps w ((compilePdf w fs a b c).snd) a b c
    la pa pdf hA hB hP hC hW
  constructor
  · rw [h2]
  · intro q
    rw [h2, h1]
    by_cases hq : q = pa <;> simp [hq]

/-- Witness for C8, at a world where every step succeeds. -/
theorem compilePdf_idempotent_witness :
    (compilePdf demoWorld fsEmpty 0 1 2).fst = 1 ∧
    ((compilePdf demoWorld ((compilePdf demoWorld fsEmpty 0 1 2).snd) 0 1 2).fst = 1 ∧
     ∀ q, (compilePdf demoWorld ((compilePdf demoWorld fsEmpty 0 1 2).snd) 0 1 2).snd q =
       (compilePdf demoWorld fsEmpty 0 1 2).snd q) :=
  ⟨rfl, compilePdf_idempotent demoWorld fsEmpty 0 1 2 rfl⟩

/-- Claim C9: if a decode or the engine fails, compilePdf performs no
filesystem operation at all: the destination file is neither created nor
truncated, since `File::create` is reached only after those steps succeed. -/
theorem compilePdf_no_fs_effect_pre_write (w : ExternWorld) (fs : FS)
    (a b c : JStringHandle)
    (h : (∃ e, w.getString a = Except.error e) ∨
         (∃ la e, w.getString a = Except.ok la ∧ w.getString b = Except.error e) ∨
         (∃ la pa e, w.getString a = Except.ok la ∧ w.getString b = Except.ok pa ∧
           w.latexToPdf la = Except.error e)) :
    ∀ q, (compilePdf w fs a b c).snd q = fs q := by
  have h4 : compilePdf w fs a b c = (0, fs) := by
    rcases h with h1 | h2 | h3
    · exact compilePdf_fail_pre w fs a b c (Or.inl h1)
    · exact compilePdf_fail_pre w fs a b c (Or.inr (Or.inl h2))
    · exact compilePdf_fail_pre w fs a b c (Or.inr (Or.inr (Or.inl h3)))
  rw [h4]
  exact fun q => rfl

/-- Witness for C9, at a world whose first decode fails. -/
theorem compilePdf_no_fs_effect_pre_write_witness :
    ((∃ e, failWorld.getString 0 = Except.error e) ∨
     (∃ la e, failWorld.getString 0 = Except.ok la ∧
       failWorld.getString 1 = Except.error e) ∨
     (∃ la pa e, failWorld.getString 0 = Except.ok la ∧
       failWorld.getString 1 = Except.ok pa ∧
       failWorld.latexToPdf la = Except.error e)) ∧
    ∀ q, (compilePdf failWorld fsEmpty 0 1 2).snd q = fsEmpty q := by
  have hd : (∃ e, failWorld.getString 0 = Except.error e) ∨
      (∃ la e, failWorld.getString 0 = Except.ok la ∧
        failWorld.getString 1 = Except.error e) ∨
      (∃ la pa e, failWorld.getString 0 = Except.ok la ∧
        failWorld.getString 1 = Except.ok pa ∧
        failWorld.latexToPdf la = Except.error e) :=
    Or.inl ⟨"bad handle", rfl⟩
  exact ⟨hd, compilePdf_no_fs_effect_pre_write failWorld fsEmpty 0 1 2 hd⟩

/-- Claim C10: the jboolean value compilePdf returns is always exactly 0 or
exactly 1, never any other byte value. -/
theorem compilePdf_returns_zero_or_one (w : ExternWorld) (fs : FS)
    (a b c : JStringHandle) :
    (compilePdf w fs a b c).fst = 0 ∨ (compilePdf w fs a b c).fst = 1 :=
  compilePdf_fst_zero_or_one w fs a b c

end LiveLatexApp
